import Mathlib

/-!
Shallow embedding of `temperature_ds18s20_stanley_driver/__main__.py`.

The program reads DS18S20 one-wire sensor files, parses them with two
regular expressions, and submits the readings to a remote archive.
File-system state and the process environment are modelled as partial maps
from strings to strings; timestamps are modelled by an abstract clock
indexed by the occurrence number of each sensor read; Python floats are
modelled as exact rationals (the only arithmetic is division by 1000);
the `float("nan")` sentinel is modelled as `none`.
-/

set_option autoImplicit false

namespace TempDriver

/-! ### The two line patterns

`FIRST_LINE_PATTERN = re.compile(r".*: crc=(\w\w) (?P<valid>YES|NO)")`
`SECOND_LINE_PATTERN = re.compile(r".*t=(?P<temperature>-?\d+)")`

Both patterns start with a greedy `.*`, so the Python engine backtracks
from the end of the line: the occurrence of the pattern tail that wins is
the rightmost one.  `searchTail m l` reproduces this by trying the tail
matcher `m` on the suffixes of `l`, rightmost (shortest) suffix first.
-/

/-- The regex character class `\w` (ASCII model: letters, digits, underscore). -/
def isWordChar (c : Char) : Bool := c.isAlphanum || c = '_'

/-- Greedy search for a pattern of the form `.*T`: try the tail matcher on
every suffix, rightmost first, as the backtracking `.*` does. -/
def searchTail {α : Type} (m : List Char → Option α) : List Char → Option α
  | [] => m []
  | c :: cs =>
    match searchTail m cs with
    | some a => some a
    | none => m (c :: cs)

/-- Tail of `FIRST_LINE_PATTERN` after the `.*`: literal `: crc=`, two word
characters, a space, then `YES` or `NO`; returns the `valid` group. -/
def firstTailMatch : List Char → Option String
  | ':' :: ' ' :: 'c' :: 'r' :: 'c' :: '=' :: c1 :: c2 :: ' ' :: rest =>
    if isWordChar c1 && isWordChar c2 then
      match rest with
      | 'Y' :: 'E' :: 'S' :: _ => some "YES"
      | 'N' :: 'O' :: _ => some "NO"
      | _ => none
    else none
  | _ => none

/-- `FIRST_LINE_PATTERN.match(line)`: the extracted `valid` group, if any. -/
def firstLineMatch (l : List Char) : Option String := searchTail firstTailMatch l

/-- Numeric value of a list of decimal digits. -/
def digitsToNat (ds : List Char) : Nat :=
  ds.foldl (fun acc c => 10 * acc + (c.toNat - '0'.toNat)) 0

/-- Tail of `SECOND_LINE_PATTERN` after the `.*`: literal `t=`, an optional
minus sign, then a maximal nonempty run of digits (`\d+` is greedy);
returns the signed integer value of the `temperature` group. -/
def secondTailMatch : List Char → Option Int
  | 't' :: '=' :: rest =>
    match rest with
    | [] => none
    | c :: ds =>
      if c = '-' then
        if (ds.takeWhile Char.isDigit).isEmpty then none
        else some (-(digitsToNat (ds.takeWhile Char.isDigit) : Int))
      else
        if ((c :: ds).takeWhile Char.isDigit).isEmpty then none
        else some ((digitsToNat ((c :: ds).takeWhile Char.isDigit) : Int))
  | _ => none

/-- `SECOND_LINE_PATTERN.match(line)`: the extracted temperature, if any. -/
def secondLineMatch (l : List Char) : Option Int := searchTail secondTailMatch l

/-! ### The sensor reader -/

/-- `"/sys/bus/w1/devices/{}/w1_slave".format(sensor_id)` -/
def sensorPath (sensor_id : String) : String :=
  "/sys/bus/w1/devices/" ++ sensor_id ++ "/w1_slave"

/-- `content.split("\n")` on the character list: like Python `str.split`
with a one-character separator, it never returns an empty list. -/
def splitLines : List Char → List (List Char)
  | [] => [[]]
  | c :: rest =>
    if c = '\n' then [] :: splitLines rest
    else
      match splitLines rest with
      | l :: ls => (c :: l) :: ls
      | [] => [[c]]

/-- The ways the body of `read_ds18s20_temperature` can raise:
opening/reading the file (`fileError`), unpacking `lines[0:2]` into two
variables when the file has a single line (`unpackError`), and the two
explicit `RuntimeError`s. -/
inductive ReadFailure where
  | fileError
  | unpackError
  | outputNotValid
  | crcNotValid
deriving DecidableEq

/-- File-system state: path to file content, `none` when unreadable. -/
abbrev FileSystem := String → Option String

/-- The body of `read_ds18s20_temperature` (before the `@trap_nan`
decorator): open the file, split into lines, match both patterns, and on a
`YES` flag return `float(temperature)/1000`; every failure raises. -/
def read_ds18s20_temperature_raw (fs : FileSystem) (sensor_id : String) :
    Except ReadFailure ℚ :=
  match fs (sensorPath sensor_id) with
  | none => .error .fileError
  | some content =>
    match splitLines content.data with
    | first_line :: second_line :: _ =>
      match firstLineMatch first_line, secondLineMatch second_line with
      | some valid, some temperature =>
        if valid = "YES" then .ok ((temperature : ℚ) / 1000)
        else .error .crcNotValid
      | _, _ => .error .outputNotValid
    | _ => .error .unpackError

/-- The `trap_nan` decorator: run the wrapped function, and on any raised
exception return the not-a-number sentinel (modelled as `none`). -/
def trap_nan {α : Type} (f : α → Except ReadFailure ℚ) : α → Option ℚ :=
  fun a =>
    match f a with
    | .ok t => some t
    | .error _ => none

/-- `read_ds18s20_temperature` as seen by callers: the raw reader wrapped
in `trap_nan`. -/
def read_ds18s20_temperature (fs : FileSystem) : String → Option ℚ :=
  trap_nan (read_ds18s20_temperature_raw fs)

/-! ### The orchestrator `async_main` -/

/-- Process environment: variable name to value, `none` when unset. -/
abbrev EnvMap := String → Option String

/-- A pandas series of timestamped values as this program builds them:
a list of (timestamp, value) points, the value being a Celsius rational
or the not-a-number sentinel `none`. -/
abbrev TimeSeries := List (Nat × Option ℚ)

/-- The result of `parse_arguments`. -/
structure Arguments where
  verbose : Option Int
  url : String
  username : String
  ca_cert : Option String
  sensor : List String

/-- The `--sensor` option is declared with `default=list()`: when the flag
is omitted, `arguments.sensor` is the empty list. -/
def sensor_default : List String := []

/-- One step of building a Python dict: inserting a key that is already
present overwrites its value in place (keeping the original insertion
position); a fresh key is appended at the end. -/
def dictInsert {α : Type} (d : List (String × α)) (k : String) (v : α) :
    List (String × α) :=
  if d.any (fun p => p.1 == k) then
    d.map (fun p => if p.1 == k then (k, v) else p)
  else d ++ [(k, v)]

/-- A Python dict comprehension: fold the evaluated (key, value) pairs
into a dict, in iteration order. -/
def dfold {α : Type} (l : List (String × α)) : List (String × α) :=
  l.foldl (fun d kv => dictInsert d kv.1 kv.2) []

/-- The (key, value) pair the `all_time_series` comprehension evaluates
for each occurrence of a sensor in `arguments.sensor`: the sensor id,
paired with a fresh single-point series holding the current timestamp
(the clock is indexed by the occurrence number, one tick per iteration)
and a fresh invocation of the sensor reader. -/
def occurrenceReadings (fs : FileSystem) (clock : Nat → Nat)
    (sensors : List String) : List (String × TimeSeries) :=
  sensors.enum.map (fun p => (p.2, [(clock p.1, read_ds18s20_temperature fs p.2)]))

/-- `all_time_series = {sensor: pd.Series([...], index=[...]) for sensor
in arguments.sensor}`: the per-occurrence pairs folded into a dict. -/
def buildAllTimeSeries (fs : FileSystem) (clock : Nat → Nat)
    (sensors : List String) : List (String × TimeSeries) :=
  dfold (occurrenceReadings fs clock sensors)

/-- `"/sensors/temperature/{}".format(sensor)` -/
def seriesName (sensor : String) : String := "/sensors/temperature/" ++ sensor

/-- `readings = {"/sensors/temperature/{}".format(sensor): time_series
for sensor, time_series in all_time_series.items()}` -/
def readingsOf (all_time_series : List (String × TimeSeries)) :
    List (String × TimeSeries) :=
  dfold (all_time_series.map (fun kv => (seriesName kv.1, kv.2)))

/-- The externally visible actions of `async_main`, in program order. -/
inductive Event where
  | readEnv (key : String)
  | delEnv (key : String)
  | constructClient (url username : String) (ca_cert : Option String)
      (password : String)
  | networkPost (readings : List (String × TimeSeries))
deriving DecidableEq

/-- Whether an event is the construction of the Stanley archive client. -/
def Event.isConstructClient : Event → Bool
  | .constructClient _ _ _ _ => true
  | _ => false

/-- Whether an event is the network submission `stanley.post_readings`. -/
def Event.isNetworkPost : Event → Bool
  | .networkPost _ => true
  | _ => false

/-- The only uncaught error `async_main` itself raises before the network
call: the `KeyError` from `os.environ["STANLEY_PASSWORD"]`. -/
inductive MainError where
  | missingPassword
deriving DecidableEq

/-- Outcome of a run of `async_main`: the events it performed, each paired
with the environment state once that event has taken effect, the final
outcome, and the final environment state. -/
structure RunResult where
  trace : List (Event × EnvMap)
  outcome : Except MainError Unit
  finalEnv : EnvMap

/-- `async_main`, parametrised by the initial environment, the file
system, the clock, and the already-parsed arguments:
read `os.environ["STANLEY_PASSWORD"]` (raising when unset), delete it,
construct the `StanleyAiohttpInterface`, build the readings, and post
them. -/
def async_main (env : EnvMap) (fs : FileSystem) (clock : Nat → Nat)
    (arguments : Arguments) : RunResult :=
  match env "STANLEY_PASSWORD" with
  | none => ⟨[], .error .missingPassword, env⟩
  | some password =>
    let env1 : EnvMap := fun k => if k = "STANLEY_PASSWORD" then none else env k
    let readings := readingsOf (buildAllTimeSeries fs clock arguments.sensor)
    ⟨[(.readEnv "STANLEY_PASSWORD", env),
      (.delEnv "STANLEY_PASSWORD", env1),
      (.constructClient arguments.url arguments.username arguments.ca_cert
        password, env1),
      (.networkPost readings, env1)],
     .ok (), env1⟩

/-! ### Logging setup -/

/-- The three logging levels `setup_logging` can select. -/
inductive LogLevel where
  | warn
  | info
  | debug
deriving DecidableEq

/-- `setup_logging`: `verbose` is the value of the counted `-v` flag,
`None` when the flag never appears. -/
def setup_logging (verbose : Option Int) : LogLevel :=
  match verbose with
  | none => .warn
  | some v => if v ≤ 0 then .warn else if v = 1 then .info else .debug

/-! ### Helper lemmas -/

theorem searchTail_isSome_self {α : Type} (m : List Char → Option α) (l : List Char)
    (h : (m l).isSome = true) : (searchTail m l).isSome = true := by
  cases l with
  | nil => simpa [searchTail] using h
  | cons c cs =>
    simp only [searchTail]
    cases hs : searchTail m cs with
    | some a => simp
    | none => simpa using h

theorem searchTail_append_isSome {α : Type} (m : List Char → Option α) (tr : List Char)
    (hm : ∀ x, (m x).isSome = true → (m (x ++ tr)).isSome = true) :
    ∀ l, (searchTail m l).isSome = true → (searchTail m (l ++ tr)).isSome = true := by
  intro l
  induction l with
  | nil =>
    intro h
    exact searchTail_isSome_self m tr (hm [] (by simpa [searchTail] using h))
  | cons c cs ih =>
    intro h
    show (searchTail m (c :: (cs ++ tr))).isSome = true
    simp only [searchTail] at h ⊢
    cases hs : searchTail m (cs ++ tr) with
    | some a => simp
    | none =>
      cases hcs : searchTail m cs with
      | some a => exact absurd (ih (by simp [hcs])) (by simp [hs])
      | none =>
        rw [hcs] at h
        simpa using hm (c :: cs) (by simpa using h)

theorem firstTailMatch_append_isSome (tr l : List Char)
    (h : (firstTailMatch l).isSome = true) :
    (firstTailMatch (l ++ tr)).isSome = true := by
  unfold firstTailMatch at h ⊢
  split at h
  · split at h
    · split at h
      · simp_all [List.cons_append]
      · simp_all [List.cons_append]
      · simp at h
    · simp at h
  · simp at h

theorem takeWhile_not_empty_append (p : Char → Bool) (ds tr : List Char)
    (h : (ds.takeWhile p).isEmpty = false) :
    (((ds ++ tr).takeWhile p).isEmpty) = false := by
  cases ds with
  | nil => simp [List.takeWhile] at h
  | cons d ds' =>
    simp only [List.cons_append, List.takeWhile_cons] at h ⊢
    cases hp : p d with
    | true => simp [hp] at h ⊢
    | false => simp [hp] at h

theorem secondTailMatch_append_isSome (tr l : List Char)
    (h : (secondTailMatch l).isSome = true) :
    (secondTailMatch (l ++ tr)).isSome = true := by
  unfold secondTailMatch at h ⊢
  split at h
  · split at h
    · simp at h
    · rename_i rest c ds
      simp only [List.cons_append]
      by_cases hc : c = '-'
      · rw [if_pos hc] at h ⊢
        cases hde : (ds.takeWhile Char.isDigit).isEmpty with
        | true => rw [hde] at h; simp at h
        | false =>
          rw [takeWhile_not_empty_append Char.isDigit ds tr hde]
          simp
      · rw [if_neg hc] at h ⊢
        cases hde : ((c :: ds).takeWhile Char.isDigit).isEmpty with
        | true => rw [hde] at h; simp at h
        | false =>
          have hne := takeWhile_not_empty_append Char.isDigit (c :: ds) tr hde
          rw [List.cons_append] at hne
          rw [hne]
          simp
  · simp at h

theorem dictInsert_of_forall_ne {α : Type} (d : List (String × α)) (k : String) (v : α)
    (h : ∀ p ∈ d, p.1 ≠ k) : dictInsert d k v = d ++ [(k, v)] := by
  have hc : ¬(d.any (fun p => p.1 == k) = true) := by
    simp only [List.any_eq_true, beq_iff_eq]
    rintro ⟨p, hp, he⟩
    exact h p hp he
  simp [dictInsert, hc]

theorem foldl_dictInsert_eq_append {α : Type} (l : List (String × α)) :
    ∀ acc, (l.map Prod.fst).Nodup →
      (∀ p ∈ l, ∀ q ∈ acc, q.1 ≠ p.1) →
      l.foldl (fun d kv => dictInsert d kv.1 kv.2) acc = acc ++ l := by
  induction l with
  | nil => intro acc _ _; simp
  | cons kv t ih =>
    intro acc hnd hdisj
    have hk : kv.1 ∉ t.map Prod.fst := by
      simp only [List.map_cons, List.nodup_cons] at hnd
      exact hnd.1
    have hnd' : (t.map Prod.fst).Nodup := by
      simp only [List.map_cons, List.nodup_cons] at hnd
      exact hnd.2
    have hdisj' : ∀ p ∈ t, ∀ q ∈ acc ++ [kv], q.1 ≠ p.1 := by
      intro p hp q hq
      rcases List.mem_append.mp hq with hq | hq
      · exact hdisj p (List.mem_cons_of_mem kv hp) q hq
      · have hqe : q = kv := by simpa using hq
        subst hqe
        intro he
        exact hk (by rw [he]; exact List.mem_map_of_mem Prod.fst hp)
    simp only [List.foldl_cons]
    rw [dictInsert_of_forall_ne acc kv.1 kv.2
      (fun q hq => hdisj kv (List.mem_cons_self kv t) q hq)]
    rw [ih (acc ++ [kv]) hnd' hdisj']
    simp

theorem dfold_eq_self {α : Type} (l : List (String × α))
    (hnd : (l.map Prod.fst).Nodup) : dfold l = l := by
  simpa [dfold] using foldl_dictInsert_eq_append l [] hnd (by simp)

theorem occurrenceReadings_map_fst (fs : FileSystem) (clock : Nat → Nat)
    (sensors : List String) :
    (occurrenceReadings fs clock sensors).map Prod.fst = sensors := by
  simp only [occurrenceReadings, List.map_map]
  have hc : (Prod.fst ∘ fun p : Nat × String =>
      (p.2, [(clock p.1, read_ds18s20_temperature fs p.2)])) = Prod.snd := rfl
  rw [hc, List.enum_map_snd]

theorem occurrenceReadings_getElem? (fs : FileSystem) (clock : Nat → Nat)
    (sensors : List String) (i : Nat) (s : String) (h : sensors[i]? = some s) :
    (occurrenceReadings fs clock sensors)[i]? =
      some (s, [(clock i, read_ds18s20_temperature fs s)]) := by
  simp [occurrenceReadings, List.getElem?_map, List.getElem?_enum, h]

theorem seriesName_injective : Function.Injective seriesName := by
  intro a b h
  have hd := congrArg String.data h
  simp only [seriesName, String.data_append] at hd
  exact String.ext (List.append_cancel_left hd)

/-! ### Claim theorems -/

/-- C1: for every sensor whose driver file's first line matches the
first-line pattern with validity flag "YES" and whose second line matches
the second-line pattern with signed integer millidegree value n, the
sensor reader returns n / 1000. -/
theorem C1_reader_valid_value (fs : FileSystem) (sensor_id content : String)
    (l1 l2 : List Char) (rest : List (List Char)) (n : ℤ)
    (hfs : fs (sensorPath sensor_id) = some content)
    (hsplit : splitLines content.data = l1 :: l2 :: rest)
    (h1 : firstLineMatch l1 = some "YES")
    (h2 : secondLineMatch l2 = some n) :
    read_ds18s20_temperature fs sensor_id = some ((n : ℚ) / 1000) := by
  simp [read_ds18s20_temperature, trap_nan, read_ds18s20_temperature_raw,
    hfs, hsplit, h1, h2]

/-- File system holding one valid-CRC sensor file reporting t=21562. -/
def fsC1 : FileSystem := fun p =>
  if p = sensorPath "28-000001" then some "xx: crc=ab YES\nxx t=21562" else none

theorem C1_reader_valid_value_witness :
    read_ds18s20_temperature fsC1 "28-000001" = some 21.562 := by
  have hq : ((21562 : ℤ) : ℚ) / 1000 = 21.562 := by norm_num
  have h := C1_reader_valid_value fsC1 "28-000001" "xx: crc=ab YES\nxx t=21562"
    ("xx: crc=ab YES").data ("xx t=21562").data [] 21562
    (by decide) (by decide) (by decide) (by decide)
  rw [h, hq]

/-- C2: the sensor reader never propagates an error to its caller: when
the file cannot be opened, when either line pattern fails to match, and
more generally whenever the raw reader raises any failure at all, it
returns the not-a-number sentinel. -/
theorem C2_reader_never_raises (fs : FileSystem) (sensor_id : String) :
    (fs (sensorPath sensor_id) = none →
      read_ds18s20_temperature fs sensor_id = none) ∧
    (∀ (content : String) (l1 l2 : List Char) (rest : List (List Char)),
      fs (sensorPath sensor_id) = some content →
      splitLines content.data = l1 :: l2 :: rest →
      firstLineMatch l1 = none ∨ secondLineMatch l2 = none →
      read_ds18s20_temperature fs sensor_id = none) ∧
    (∀ e : ReadFailure, read_ds18s20_temperature_raw fs sensor_id = .error e →
      read_ds18s20_temperature fs sensor_id = none) := by
  refine ⟨?_, ?_, ?_⟩
  · intro h
    simp [read_ds18s20_temperature, trap_nan, read_ds18s20_temperature_raw, h]
  · intro content l1 l2 rest hfs hsplit hmm
    rcases hmm with hm | hm
    · simp [read_ds18s20_temperature, trap_nan, read_ds18s20_temperature_raw,
        hfs, hsplit, hm]
    · cases hf : firstLineMatch l1 with
      | none => simp [read_ds18s20_temperature, trap_nan,
          read_ds18s20_temperature_raw, hfs, hsplit, hf]
      | some v => simp [read_ds18s20_temperature, trap_nan,
          read_ds18s20_temperature_raw, hfs, hsplit, hf, hm]
  · intro e he
    simp [read_ds18s20_temperature, trap_nan, he]

theorem C2_reader_never_raises_witness :
    read_ds18s20_temperature (fun _ => none) "28-000001" = none :=
  (C2_reader_never_raises (fun _ => none) "28-000001").1 rfl

/-- C3: when both line patterns match but the validity flag is "NO", the
sensor reader returns the not-a-number sentinel. -/
theorem C3_reader_crc_no (fs : FileSystem) (sensor_id content : String)
    (l1 l2 : List Char) (rest : List (List Char)) (n : ℤ)
    (hfs : fs (sensorPath sensor_id) = some content)
    (hsplit : splitLines content.data = l1 :: l2 :: rest)
    (h1 : firstLineMatch l1 = some "NO")
    (h2 : secondLineMatch l2 = some n) :
    read_ds18s20_temperature fs sensor_id = none := by
  simp [read_ds18s20_temperature, trap_nan, read_ds18s20_temperature_raw,
    hfs, hsplit, h1, h2]

/-- File system holding one sensor file whose CRC flag is "NO". -/
def fsC3 : FileSystem := fun p =>
  if p = sensorPath "28-000001" then some "xx: crc=ab NO\nxx t=21562" else none

theorem C3_reader_crc_no_witness :
    read_ds18s20_temperature fsC3 "28-000001" = none :=
  C3_reader_crc_no fsC3 "28-000001" "xx: crc=ab NO\nxx t=21562"
    ("xx: crc=ab NO").data ("xx t=21562").data [] 21562
    (by decide) (by decide) (by decide) (by decide)

/-- C4: the orchestrator's comprehension evaluates one reading per element
of the configured sensor list, in command-line order (duplicates included):
the i-th occurrence carries its own timestamp capture (tick i of the
clock) and its own sensor-reader invocation, packaged as its own
single-point time series; `buildAllTimeSeries` is the dict folded from
exactly these per-occurrence pairs. -/
theorem C4_one_reading_per_occurrence (fs : FileSystem) (clock : Nat → Nat)
    (sensors : List String) :
    (occurrenceReadings fs clock sensors).map Prod.fst = sensors ∧
    (∀ (i : Nat) (s : String), sensors[i]? = some s →
      (occurrenceReadings fs clock sensors)[i]? =
        some (s, [(clock i, read_ds18s20_temperature fs s)])) ∧
    buildAllTimeSeries fs clock sensors =
      dfold (occurrenceReadings fs clock sensors) := by
  exact ⟨occurrenceReadings_map_fst fs clock sensors,
    fun i s h => occurrenceReadings_getElem? fs clock sensors i s h, rfl⟩

theorem C4_one_reading_per_occurrence_witness :
    (occurrenceReadings (fun _ => none) (fun i => i)
        ["28-000001", "28-000002", "28-000001"]).map Prod.fst
      = ["28-000001", "28-000002", "28-000001"] ∧
    (occurrenceReadings (fun _ => none) (fun i => i)
        ["28-000001", "28-000002", "28-000001"])[2]? =
      some ("28-000001",
        [(2, read_ds18s20_temperature (fun _ => none) "28-000001")]) := by
  refine ⟨(C4_one_reading_per_occurrence (fun _ => none) (fun i => i)
    ["28-000001", "28-000002", "28-000001"]).1, ?_⟩
  exact (C4_one_reading_per_occurrence (fun _ => none) (fun i => i)
    ["28-000001", "28-000002", "28-000001"]).2.1 2 "28-000001" (by decide)

/-- C5: for every list of distinct configured sensor identifiers, the
submission payload keys are exactly the series names
"/sensors/temperature/" ++ id, one per configured id in order, and every
key is bound to a time series containing exactly one data point. -/
theorem C5_payload_keys (fs : FileSystem) (clock : Nat → Nat)
    (sensors : List String) (hnd : sensors.Nodup) :
    (readingsOf (buildAllTimeSeries fs clock sensors)).map Prod.fst
        = sensors.map seriesName ∧
    ∀ kv ∈ readingsOf (buildAllTimeSeries fs clock sensors),
      kv.2.length = 1 := by
  have hocc := occurrenceReadings_map_fst fs clock sensors
  have hbuild : buildAllTimeSeries fs clock sensors
      = occurrenceReadings fs clock sensors := by
    apply dfold_eq_self
    rw [hocc]
    exact hnd
  have hkeys : (((occurrenceReadings fs clock sensors).map
      (fun kv => (seriesName kv.1, kv.2))).map Prod.fst)
        = sensors.map seriesName := by
    rw [List.map_map]
    have hc : (Prod.fst ∘ fun kv : String × TimeSeries =>
        (seriesName kv.1, kv.2)) = seriesName ∘ Prod.fst := rfl
    rw [hc, ← List.map_map, hocc]
  have hread : readingsOf (buildAllTimeSeries fs clock sensors)
      = (occurrenceReadings fs clock sensors).map
          (fun kv => (seriesName kv.1, kv.2)) := by
    rw [hbuild]
    unfold readingsOf
    apply dfold_eq_self
    rw [hkeys]
    exact hnd.map seriesName_injective
  refine ⟨by rw [hread, hkeys], ?_⟩
  intro kv hkv
  rw [hread] at hkv
  simp only [occurrenceReadings, List.map_map, List.mem_map] at hkv
  obtain ⟨p, hp, hkveq⟩ := hkv
  rw [← hkveq]
  rfl

theorem C5_payload_keys_witness :
    (readingsOf (buildAllTimeSeries (fun _ => none) (fun i => i)
        ["28-000001", "28-000002"])).map Prod.fst
      = ["/sensors/temperature/28-000001", "/sensors/temperature/28-000002"] ∧
    ∀ kv ∈ readingsOf (buildAllTimeSeries (fun _ => none) (fun i => i)
        ["28-000001", "28-000002"]), kv.2.length = 1 := by
  have h := C5_payload_keys (fun _ => none) (fun i => i)
    ["28-000001", "28-000002"] (by decide)
  refine ⟨?_, h.2⟩
  rw [h.1]
  rfl

/-- C6: when STANLEY_PASSWORD is unset, async_main terminates with the
uncaught missing-password error, and its trace contains neither a client
construction nor a network post. -/
theorem C6_missing_password_fatal (env : EnvMap) (fs : FileSystem)
    (clock : Nat → Nat) (arguments : Arguments)
    (h : env "STANLEY_PASSWORD" = none) :
    (async_main env fs clock arguments).outcome = .error .missingPassword ∧
    ∀ entry ∈ (async_main env fs clock arguments).trace,
      entry.1.isConstructClient = false ∧ entry.1.isNetworkPost = false := by
  simp [async_main, h]

theorem C6_missing_password_fatal_witness :
    (async_main (fun _ => none) (fun _ => none) (fun i => i)
        ⟨none, "https://stanley.example", "user", none, ["28-000001"]⟩).outcome
      = .error .missingPassword ∧
    ∀ entry ∈ (async_main (fun _ => none) (fun _ => none) (fun i => i)
        ⟨none, "https://stanley.example", "user", none, ["28-000001"]⟩).trace,
      entry.1.isConstructClient = false ∧ entry.1.isNetworkPost = false :=
  C6_missing_password_fatal (fun _ => none) (fun _ => none) (fun i => i)
    ⟨none, "https://stanley.example", "user", none, ["28-000001"]⟩ rfl

/-- C7: when STANLEY_PASSWORD is initially set, the variable is absent
from the environment at every client-construction and network event, it
is absent at every trace point after the initial environment read, and it
is absent from the final environment: it is scrubbed before any network
use and never present again. -/
theorem C7_password_scrubbed (env : EnvMap) (fs : FileSystem)
    (clock : Nat → Nat) (arguments : Arguments) (password : String)
    (h : env "STANLEY_PASSWORD" = some password) :
    (∀ entry ∈ (async_main env fs clock arguments).trace,
        entry.1.isConstructClient = true ∨ entry.1.isNetworkPost = true →
        entry.2 "STANLEY_PASSWORD" = none) ∧
    (∀ entry ∈ (async_main env fs clock arguments).trace,
        entry.1 ≠ .readEnv "STANLEY_PASSWORD" →
        entry.2 "STANLEY_PASSWORD" = none) ∧
    (async_main env fs clock arguments).finalEnv "STANLEY_PASSWORD" = none := by
  simp [async_main, h, Event.isConstructClient, Event.isNetworkPost]

/-- Environment in which only STANLEY_PASSWORD is set. -/
def envWithPassword : EnvMap := fun k =>
  if k = "STANLEY_PASSWORD" then some "hunter2" else none

theorem C7_password_scrubbed_witness :
    (∀ entry ∈ (async_main envWithPassword (fun _ => none) (fun i => i)
        ⟨none, "https://stanley.example", "user", none, ["28-000001"]⟩).trace,
        entry.1.isConstructClient = true ∨ entry.1.isNetworkPost = true →
        entry.2 "STANLEY_PASSWORD" = none) ∧
    (∀ entry ∈ (async_main envWithPassword (fun _ => none) (fun i => i)
        ⟨none, "https://stanley.example", "user", none, ["28-000001"]⟩).trace,
        entry.1 ≠ .readEnv "STANLEY_PASSWORD" →
        entry.2 "STANLEY_PASSWORD" = none) ∧
    (async_main envWithPassword (fun _ => none) (fun i => i)
        ⟨none, "https://stanley.example", "user", none,
          ["28-000001"]⟩).finalEnv "STANLEY_PASSWORD" = none :=
  C7_password_scrubbed envWithPassword (fun _ => none) (fun i => i)
    ⟨none, "https://stanley.example", "user", none, ["28-000001"]⟩
    "hunter2" rfl

/-- C8: logging setup selects the warning level when the verbosity count
is absent or zero, the info level when it is one, and the debug level when
it is two or greater. -/
theorem C8_logging_levels :
    setup_logging none = .warn ∧ setup_logging (some 0) = .warn ∧
    setup_logging (some 1) = .info ∧
    ∀ v : Int, 2 ≤ v → setup_logging (some v) = .debug := by
  refine ⟨rfl, rfl, rfl, ?_⟩
  intro v hv
  show (if v ≤ 0 then LogLevel.warn
    else if v = 1 then LogLevel.info else LogLevel.debug) = LogLevel.debug
  rw [if_neg (by omega), if_neg (by omega)]

theorem C8_logging_levels_witness : setup_logging (some 2) = .debug :=
  C8_logging_levels.2.2.2 2 (by norm_num)

/-- C10: when no sensors are configured (the --sensor default, an empty
list), async_main still completes successfully and its trace contains the
network post with an empty payload. -/
theorem C10_empty_sensors_still_posts (env : EnvMap) (fs : FileSystem)
    (clock : Nat → Nat) (verbose : Option Int) (url username : String)
    (ca_cert : Option String) (password : String)
    (h : env "STANLEY_PASSWORD" = some password) :
    (async_main env fs clock
        ⟨verbose, url, username, ca_cert, sensor_default⟩).outcome = .ok () ∧
    Event.networkPost [] ∈
      (async_main env fs clock
        ⟨verbose, url, username, ca_cert, sensor_default⟩).trace.map Prod.fst := by
  simp [async_main, h, sensor_default, readingsOf, buildAllTimeSeries,
    occurrenceReadings, dfold]

theorem C10_empty_sensors_still_posts_witness :
    (async_main envWithPassword (fun _ => none) (fun i => i)
        ⟨none, "https://stanley.example", "user", none,
          sensor_default⟩).outcome = .ok () ∧
    Event.networkPost [] ∈
      (async_main envWithPassword (fun _ => none) (fun i => i)
        ⟨none, "https://stanley.example", "user", none,
          sensor_default⟩).trace.map Prod.fst :=
  C10_empty_sensors_still_posts envWithPassword (fun _ => none) (fun i => i)
    none "https://stanley.example" "user" none "hunter2" rfl

/-- File system refuting C9 as stated: the first line carries trailing
content after a matched "YES" flag, the second line is well formed, yet
the reader fails, because the greedy pattern extracts the rightmost flag
occurrence, which the trailing content supplies as "NO". -/
def fsC9bad : FileSystem := fun p =>
  if p = sensorPath "28-000001" then
    some "xx: crc=ab YES x: crc=cd NO\nxx t=21562"
  else none

theorem C9_counterexample :
    firstLineMatch ("xx: crc=ab YES").data = some "YES" ∧
    ("xx: crc=ab YES x: crc=cd NO").data
        = ("xx: crc=ab YES").data ++ (" x: crc=cd NO").data ∧
    secondLineMatch ("xx t=21562").data = some 21562 ∧
    read_ds18s20_temperature fsC9bad "28-000001" = none := by
  refine ⟨by decide, by decide, by decide, ?_⟩
  rfl

/-- File system for the amended C9: a valid first line and a second line
whose digits are followed by trailing content, `t=12a34`. -/
def fsC9good : FileSystem := fun p =>
  if p = sensorPath "28-000001" then some "xx: crc=ab YES\nxx t=12a34"
  else none

/-- C9 amended: the line patterns only constrain a prefix of each line, so
appending trailing content never turns a matching line into a pattern
failure — though the groups are extracted from the greedy (rightmost)
occurrence, which the trailing content may supply; in particular a second
line `t=12a34` matches with value 12 and the reader succeeds on such a
file, returning 12 / 1000. -/
theorem C9_amended_prefix_matching :
    (∀ l tr : List Char, (firstLineMatch l).isSome = true →
      (firstLineMatch (l ++ tr)).isSome = true) ∧
    (∀ l tr : List Char, (secondLineMatch l).isSome = true →
      (secondLineMatch (l ++ tr)).isSome = true) ∧
    secondLineMatch ("xx t=12a34").data = some 12 ∧
    read_ds18s20_temperature fsC9good "28-000001" = some ((12 : ℚ) / 1000) := by
  refine ⟨?_, ?_, by decide, rfl⟩
  · intro l tr
    exact searchTail_append_isSome firstTailMatch tr
      (firstTailMatch_append_isSome tr) l
  · intro l tr
    exact searchTail_append_isSome secondTailMatch tr
      (secondTailMatch_append_isSome tr) l

theorem C9_amended_prefix_matching_witness :
    (firstLineMatch (("xx: crc=ab YES").data ++ (" junk").data)).isSome = true ∧
    (secondLineMatch (("xx t=12").data ++ ("a34").data)).isSome = true :=
  ⟨C9_amended_prefix_matching.1 ("xx: crc=ab YES").data (" junk").data (by decide),
   C9_amended_prefix_matching.2.1 ("xx t=12").data ("a34").data (by decide)⟩

end TempDriver
